import Mathlib

/-!
Verification development for the encrypted rock-paper-scissors contract
(`src/contracts/RockPaperScissors.sol`).

The contract is shallowly embedded: addresses and `uint256` values are `Nat`
(`0` plays the role of `address(0)`), the `euint8` ciphertext handles are the
`Nat` plaintexts they stand for (reduced mod 256, the `euint8` width), and the
two Solidity mappings are total functions with the Solidity default value `0` /
zero-struct, exactly as storage behaves.  Every `external` function becomes a
Lean function from the caller (`msg.sender`), the explicit inputs and the
pre-state to `Except String RPSState`; a `require` failure is `Except.error`
with the source's revert string, so a failed call by construction leaves the
state unchanged.  The external FHE collaborators are parameters: the fresh
request id returned by `FHE.requestDecryption` and the outcome of
`FHE.checkSignatures` / `FHE.fromExternal` are supplied by the environment.
-/

namespace RPS

/-- The `GameStatus` enum of the contract, in declaration order. -/
inductive GameStatus where
  | WaitingForPlayers
  | WaitingForMoves
  | MovesCommitted
  | DecryptionInProgress
  | ResultsDecrypted
  deriving DecidableEq, BEq

/-- Numeric position of a status in the lifecycle order
`WaitingForPlayers < WaitingForMoves < MovesCommitted < DecryptionInProgress <
ResultsDecrypted` (the enum's declaration order). -/
def GameStatus.rank : GameStatus → Nat
  | .WaitingForPlayers => 0
  | .WaitingForMoves => 1
  | .MovesCommitted => 2
  | .DecryptionInProgress => 3
  | .ResultsDecrypted => 4

/-- The `Game` struct.  `encryptedMove1` / `encryptedMove2` hold the plaintext
the `euint8` handle encrypts (mod 256). -/
structure Game where
  player1 : Nat
  player2 : Nat
  encryptedMove1 : Nat
  encryptedMove2 : Nat
  player1Committed : Bool
  player2Committed : Bool
  status : GameStatus
  createdAt : Nat
  requestId : Nat
  isDraw : Bool
  player1Wins : Bool
  resultsDecrypted : Bool

/-- The zero value of the `Game` struct: what `games[g]` holds for a slot that
was never written (Solidity mapping default). -/
def defaultGame : Game :=
  { player1 := 0, player2 := 0, encryptedMove1 := 0, encryptedMove2 := 0,
    player1Committed := false, player2Committed := false,
    status := GameStatus.WaitingForPlayers, createdAt := 0, requestId := 0,
    isDraw := false, player1Wins := false, resultsDecrypted := false }

/-- Contract storage: `games`, `requestIdToGameId` and `gameCounter`.

`issued` is a ghost field recording which correlation ids
`FHE.requestDecryption` has handed out; no operation ever reads it (only
`requestGameResolution` sets it), so it does not influence behaviour.  It only
lets the step relation state the honest-oracle assumption that callbacks are
delivered for issued request ids. -/
structure RPSState where
  games : Nat → Game
  requestIdToGameId : Nat → Nat
  gameCounter : Nat
  issued : Nat → Bool

/-- The storage of a freshly deployed contract. -/
def initialState : RPSState :=
  { games := fun _ => defaultGame,
    requestIdToGameId := fun _ => 0,
    gameCounter := 0,
    issued := fun _ => false }

/-- The fresh record written by `createGame` (source lines 57-70):
`player1 := msg.sender`, encrypted moves initialised to an encryption of `0`,
status `WaitingForPlayers`. -/
def newGame (msgSender blockTimestamp : Nat) : Game :=
  { player1 := msgSender, player2 := 0, encryptedMove1 := 0, encryptedMove2 := 0,
    player1Committed := false, player2Committed := false,
    status := GameStatus.WaitingForPlayers, createdAt := blockTimestamp,
    requestId := 0, isDraw := false, player1Wins := false,
    resultsDecrypted := false }

/-- `createGame()`: allocates `gameCounter++` and stores a fresh record.
Never fails; returns the new state and the allocated game id. -/
def createGame (msgSender blockTimestamp : Nat) (S : RPSState) : RPSState × Nat :=
  let gameId := S.gameCounter
  ({ S with
      games := Function.update S.games gameId (newGame msgSender blockTimestamp),
      gameCounter := S.gameCounter + 1 },
   gameId)

/-- `joinGame(gameId)` (source lines 82-93), guards in source order. -/
def joinGame (msgSender : Nat) (S : RPSState) (gameId : Nat) : Except String RPSState :=
  let game := S.games gameId
  if game.player1 = 0 then Except.error "Game does not exist"
  else if game.player2 ≠ 0 then Except.error "Game already has two players"
  else if game.player1 = msgSender then Except.error "Cannot play against yourself"
  else if game.status ≠ GameStatus.WaitingForPlayers then Except.error "Game not in waiting state"
  else Except.ok { S with
    games := Function.update S.games gameId
      { game with player2 := msgSender, status := GameStatus.WaitingForMoves } }

/-- `makeMove(gameId, encryptedMove, inputProof)` (source lines 99-133).
`inputOk` models whether `FHE.fromExternal` accepts the ciphertext/proof pair
(an external revert otherwise); `moveVal` is the plaintext under the handle it
yields.  After the caller's slot and flag are written, the status advances to
`MovesCommitted` exactly when both committed flags hold. -/
def makeMove (msgSender : Nat) (inputOk : Bool) (S : RPSState)
    (gameId moveVal : Nat) : Except String RPSState :=
  let game := S.games gameId
  if game.status ≠ GameStatus.WaitingForMoves then Except.error "Game not accepting moves"
  else if ¬ (msgSender = game.player1 ∨ msgSender = game.player2) then
    Except.error "Not a player in this game"
  else if inputOk = false then Except.error "Invalid input proof"
  else
    let move := moveVal % 256
    if msgSender = game.player1 then
      if game.player1Committed then Except.error "Player 1 already committed"
      else Except.ok { S with
        games := Function.update S.games gameId
          { game with
              encryptedMove1 := move
              player1Committed := true
              status := if game.player2Committed then GameStatus.MovesCommitted else game.status } }
    else
      if game.player2Committed then Except.error "Player 2 already committed"
      else Except.ok { S with
        games := Function.update S.games gameId
          { game with
              encryptedMove2 := move
              player2Committed := true
              status := if game.player1Committed then GameStatus.MovesCommitted else game.status } }

/-- `FHE.eq` on `euint8` handles: equality of the underlying 8-bit values. -/
def fheEq (a b : Nat) : Bool := a % 256 == b % 256

/-- `FHE.and` on `ebool` handles. -/
def fheAnd (a b : Bool) : Bool := a && b

/-- `FHE.or` on `ebool` handles. -/
def fheOr (a b : Bool) : Bool := a || b

/-- The `isDrawEncrypted` circuit of `requestGameResolution` (source line 150):
`FHE.eq(move1, move2)`. -/
def isDrawCircuit (move1 move2 : Nat) : Bool := fheEq move1 move2

/-- The `player1WinsEncrypted` circuit of `requestGameResolution`
(source lines 154-166), mirroring the source gate by gate. -/
def player1WinsCircuit (move1 move2 : Nat) : Bool :=
  let move1IsRock := fheEq move1 0
  let move2IsScissors := fheEq move2 2
  let rockBeatsScissors := fheAnd move1IsRock move2IsScissors
  let move1IsPaper := fheEq move1 1
  let move2IsRock := fheEq move2 0
  let paperBeatsRock := fheAnd move1IsPaper move2IsRock
  let move1IsScissors := fheEq move1 2
  let move2IsPaper := fheEq move2 1
  let scissorsBeatsPaper := fheAnd move1IsScissors move2IsPaper
  fheOr (fheOr rockBeatsScissors paperBeatsRock) scissorsBeatsPaper

/-- `requestGameResolution(gameId)` (source lines 137-183).  The winner circuit
is evaluated on the committed handles and its two `ebool` outputs are handed to
the external oracle (no storage effect); `freshRequestId` is the id returned by
`FHE.requestDecryption`.  Storage effects: `game.requestId`, the
`MovesCommitted → DecryptionInProgress` transition, and the
`requestIdToGameId[requestId] = gameId` correlation entry (plus the ghost
`issued` mark). -/
def requestGameResolution (msgSender freshRequestId : Nat) (S : RPSState)
    (gameId : Nat) : Except String RPSState :=
  let game := S.games gameId
  if game.status ≠ GameStatus.MovesCommitted then Except.error "Game not ready for resolution"
  else if ¬ (msgSender = game.player1 ∨ msgSender = game.player2) then
    Except.error "Not a player in this game"
  else
    Except.ok { S with
      games := Function.update S.games gameId
        { game with
            requestId := freshRequestId
            status := GameStatus.DecryptionInProgress }
      requestIdToGameId := Function.update S.requestIdToGameId freshRequestId gameId
      issued := Function.update S.issued freshRequestId true }

/-- `gameResolutionCallback(requestId, cleartexts, decryptionProof)`
(source lines 189-219).  `checkSigs` models `FHE.checkSignatures` (an external
revert when it returns `false`); `cleartexts` is the abi-decoded pair
`(isDraw, player1Wins)` and `decryptionProof` an opaque payload.  `msgSender`
is the caller of the external function; the source never reads `msg.sender`
here, and accordingly the definition ignores it.  The only guard on the game
itself is the source's `require(gameId != 0 || games[0].requestId == requestId,
"Request ID not found")`; there is no check of `game.status`. -/
def gameResolutionCallback (checkSigs : Nat → Bool × Bool → Nat → Bool)
    (msgSender : Nat) (S : RPSState) (requestId : Nat)
    (cleartexts : Bool × Bool) (decryptionProof : Nat) : Except String RPSState :=
  let gameId := S.requestIdToGameId requestId
  if ¬ (gameId ≠ 0 ∨ (S.games 0).requestId = requestId) then
    Except.error "Request ID not found"
  else if checkSigs requestId cleartexts decryptionProof = false then
    Except.error "Invalid decryption signatures"
  else
    let game := S.games gameId
    Except.ok { S with
      games := Function.update S.games gameId
        { game with
            isDraw := cleartexts.1
            player1Wins := cleartexts.2
            resultsDecrypted := true
            status := GameStatus.ResultsDecrypted } }

/-- `getGame(gameId)` (source lines 229-248): view; fails for an unknown id. -/
def getGame (S : RPSState) (gameId : Nat) :
    Except String (Nat × Nat × GameStatus × Bool × Bool × Bool) :=
  let game := S.games gameId
  if game.player1 = 0 then Except.error "Game does not exist"
  else Except.ok (game.player1, game.player2, game.status,
    game.player1Committed, game.player2Committed, game.resultsDecrypted)

/-- `getGameResults(gameId)` (source lines 255-270): view; returns
`(isDraw, player1Wins, winner)` with `winner = address(0)` on a draw. -/
def getGameResults (S : RPSState) (gameId : Nat) :
    Except String (Bool × Bool × Nat) :=
  let game := S.games gameId
  if game.player1 = 0 then Except.error "Game does not exist"
  else if game.resultsDecrypted = false then Except.error "Results not yet decrypted"
  else
    let winnerAddress := if game.isDraw then 0
      else if game.player1Wins then game.player1 else game.player2
  Except.ok (game.isDraw, game.player1Wins, winnerAddress)

/-- `isGameReady(gameId)` (source lines 275-278): view with no `require` at
all, hence total. -/
def isGameReady (S : RPSState) (gameId : Nat) : Bool :=
  let game := S.games gameId
  game.player1Committed && game.player2Committed &&
    (game.status == GameStatus.MovesCommitted)

/-- `getGameCounter()` (source lines 282-284). -/
def getGameCounter (S : RPSState) : Nat := S.gameCounter

/-- `getGameRequestId(gameId)` (source lines 289-291). -/
def getGameRequestId (S : RPSState) (gameId : Nat) : Nat :=
  (S.games gameId).requestId

/-- Whether a call result is a success. -/
def okFlag {α : Type} : Except String α → Bool
  | Except.ok _ => true
  | Except.error _ => false

/-- The post-state of a successful call (the pre-supplied default is never used
at the concrete points where this appears). -/
def okState (dflt : RPSState) : Except String RPSState → RPSState
  | Except.ok s => s
  | Except.error _ => dflt

/-- A signature-verification environment that accepts every payload. -/
def sigAlwaysTrue : Nat → Bool × Bool → Nat → Bool := fun _ _ _ => true

/-- Concrete run: player `1` creates game `0` at time `100`. -/
def stCreated : RPSState := (createGame 1 100 initialState).1

/-- Concrete run: player `2` joins game `0`. -/
def stJoined : RPSState := okState initialState (joinGame 2 stCreated 0)

/-- Concrete run: player `1` commits move `0` (rock). -/
def stMove1 : RPSState := okState initialState (makeMove 1 true stJoined 0 0)

/-- Concrete run: player `2` commits move `2` (scissors); both committed. -/
def stMoved : RPSState := okState initialState (makeMove 2 true stMove1 0 2)

/-- Concrete run: player `1` requests resolution; the oracle assigns
request id `42`. -/
def stRequested : RPSState :=
  okState initialState (requestGameResolution 1 42 stMoved 0)

/-- Concrete run: the oracle delivers `(isDraw, player1Wins) = (false, true)`
for request `42`; game `0` reaches `ResultsDecrypted`. -/
def stDecrypted : RPSState :=
  okState initialState
    (gameResolutionCallback sigAlwaysTrue 9 stRequested 42 (false, true) 0)

theorem rank_le_four (st : GameStatus) : st.rank ≤ 4 := by
  cases st <;> decide

theorem rank_injective {a b : GameStatus} (h : a.rank = b.rank) : a = b := by
  cases a <;> cases b <;> first | rfl | exact absurd h (by decide)

/-- Inversion of a successful `joinGame`: the guards held and the post-state is
the single-slot update. -/
theorem joinGame_ok {s : Nat} {S : RPSState} {gid : Nat} {S' : RPSState}
    (h : joinGame s S gid = Except.ok S') :
    (S.games gid).player1 ≠ 0 ∧ (S.games gid).player2 = 0 ∧
    (S.games gid).player1 ≠ s ∧
    (S.games gid).status = GameStatus.WaitingForPlayers ∧
    S' = { S with
      games := Function.update S.games gid
        { S.games gid with player2 := s, status := GameStatus.WaitingForMoves } } := by
  simp only [joinGame] at h
  split_ifs at h with h1 h2 h3 h4
  injection h with h5
  exact ⟨by tauto, by tauto, by tauto, by tauto, h5.symm⟩

/-- Inversion of a successful `makeMove`: the guards held and the post-state is
the single-slot update for the calling player's branch. -/
theorem makeMove_ok {s : Nat} {inputOk : Bool} {S : RPSState} {gid mv : Nat}
    {S' : RPSState} (h : makeMove s inputOk S gid mv = Except.ok S') :
    (S.games gid).status = GameStatus.WaitingForMoves ∧
    (s = (S.games gid).player1 ∨ s = (S.games gid).player2) ∧
    inputOk = true ∧
    ((s = (S.games gid).player1 ∧ (S.games gid).player1Committed = false ∧
        (((S.games gid).player2Committed = true ∧
            S' = { S with
              games := Function.update S.games gid
                { S.games gid with
                    encryptedMove1 := mv % 256
                    player1Committed := true
                    status := GameStatus.MovesCommitted } }) ∨
          ((S.games gid).player2Committed = false ∧
            S' = { S with
              games := Function.update S.games gid
                { S.games gid with
                    encryptedMove1 := mv % 256
                    player1Committed := true
                    status := (S.games gid).status } }))) ∨
      (s ≠ (S.games gid).player1 ∧ (S.games gid).player2Committed = false ∧
        (((S.games gid).player1Committed = true ∧
            S' = { S with
              games := Function.update S.games gid
                { S.games gid with
                    encryptedMove2 := mv % 256
                    player2Committed := true
                    status := GameStatus.MovesCommitted } }) ∨
          ((S.games gid).player1Committed = false ∧
            S' = { S with
              games := Function.update S.games gid
                { S.games gid with
                    encryptedMove2 := mv % 256
                    player2Committed := true
                    status := (S.games gid).status } })))) := by
  simp only [makeMove] at h
  split_ifs at h with h1 h2 h3 h4 h5 h6
  all_goals injection h with h7
  all_goals refine ⟨by tauto, by tauto, by simp_all, ?_⟩
  all_goals
    first
      | exact Or.inl ⟨by tauto, by simp_all, Or.inl ⟨by simp_all, h7.symm⟩⟩
      | exact Or.inl ⟨by tauto, by simp_all, Or.inr ⟨by simp_all, h7.symm⟩⟩
      | exact Or.inr ⟨by tauto, by simp_all, Or.inl ⟨by simp_all, h7.symm⟩⟩
      | exact Or.inr ⟨by tauto, by simp_all, Or.inr ⟨by simp_all, h7.symm⟩⟩

/-- Inversion of a successful `requestGameResolution`. -/
theorem requestGameResolution_ok {s f : Nat} {S : RPSState} {gid : Nat}
    {S' : RPSState} (h : requestGameResolution s f S gid = Except.ok S') :
    (S.games gid).status = GameStatus.MovesCommitted ∧
    (s = (S.games gid).player1 ∨ s = (S.games gid).player2) ∧
    S' = { S with
      games := Function.update S.games gid
        { S.games gid with
            requestId := f
            status := GameStatus.DecryptionInProgress }
      requestIdToGameId := Function.update S.requestIdToGameId f gid
      issued := Function.update S.issued f true } := by
  simp only [requestGameResolution] at h
  split_ifs at h with h1 h2
  injection h with h3
  exact ⟨by tauto, by tauto, h3.symm⟩

/-- Inversion of a successful `gameResolutionCallback`: the post-state updates
the slot named by the correlation table, unconditionally setting the decrypted
fields and `ResultsDecrypted`. -/
theorem gameResolutionCallback_ok {cs : Nat → Bool × Bool → Nat → Bool}
    {sender : Nat} {S : RPSState} {rid : Nat} {ct : Bool × Bool} {pf : Nat}
    {S' : RPSState}
    (h : gameResolutionCallback cs sender S rid ct pf = Except.ok S') :
    S' = { S with
      games := Function.update S.games (S.requestIdToGameId rid)
        { S.games (S.requestIdToGameId rid) with
            isDraw := ct.1
            player1Wins := ct.2
            resultsDecrypted := true
            status := GameStatus.ResultsDecrypted } } := by
  simp only [gameResolutionCallback] at h
  split_ifs at h with h1 h2
  injection h with h3
  exact h3.symm

/-- One externally-triggered operation of the contract, executed as an
indivisible unit.  A failed call reverts and is not a step (the state is
unchanged).  The callback case carries the honest-oracle assumption of the
trust model (spec §4.4/§6): the oracle only delivers payloads for correlation
ids that `FHE.requestDecryption` actually issued (recorded in the ghost
`issued` field). -/
inductive Step : RPSState → RPSState → Prop where
  | create (msgSender blockTimestamp : Nat) (S : RPSState) :
      Step S (createGame msgSender blockTimestamp S).1
  | join (msgSender gameId : Nat) (S S' : RPSState) :
      joinGame msgSender S gameId = Except.ok S' → Step S S'
  | move (msgSender : Nat) (inputOk : Bool) (gameId moveVal : Nat)
      (S S' : RPSState) :
      makeMove msgSender inputOk S gameId moveVal = Except.ok S' → Step S S'
  | request (msgSender freshRequestId gameId : Nat) (S S' : RPSState) :
      requestGameResolution msgSender freshRequestId S gameId = Except.ok S' →
      Step S S'
  | callback (checkSigs : Nat → Bool × Bool → Nat → Bool)
      (msgSender requestId : Nat) (cleartexts : Bool × Bool)
      (decryptionProof : Nat) (S S' : RPSState) :
      S.issued requestId = true →
      gameResolutionCallback checkSigs msgSender S requestId cleartexts
        decryptionProof = Except.ok S' →
      Step S S'

/-- States reachable from a fresh deployment by sequences of operations. -/
inductive Reachable : RPSState → Prop where
  | init : Reachable initialState
  | step {S S' : RPSState} : Reachable S → Step S S' → Reachable S'

/-- The allocation invariant: slots at or above `gameCounter` are untouched
storage, every issued correlation id points below `gameCounter`, and a
never-issued correlation id has no trace in storage — no correlation-table
entry and (unless it is 0, the Solidity default) no game carrying it in its
`requestId` field. -/
def Inv (S : RPSState) : Prop :=
  (∀ g, S.gameCounter ≤ g → S.games g = defaultGame) ∧
  (∀ r, S.issued r = true → S.requestIdToGameId r < S.gameCounter) ∧
  (∀ r, S.issued r = false → S.requestIdToGameId r = 0 ∧
    ∀ g, (S.games g).requestId = r → r = 0)

theorem inv_initial : Inv initialState := by
  refine ⟨?_, ?_, ?_⟩
  · intro g _
    rfl
  · intro r hr
    exact absurd hr (by simp [initialState])
  · intro r _
    exact ⟨rfl, fun g hgr => hgr.symm⟩

theorem inv_step {S S' : RPSState} (hI : Inv S) (hs : Step S S') : Inv S' := by
  obtain ⟨hI1, hI2, hI3⟩ := hI
  cases hs with
  | create sender t S =>
    refine ⟨?_, ?_, ?_⟩
    · intro g hg
      simp only [createGame] at hg ⊢
      rw [Function.update_noteq (by omega)]
      exact hI1 g (by omega)
    · intro r hr
      simp only [createGame] at hr ⊢
      exact Nat.lt_succ_of_lt (hI2 r hr)
    · intro r hr
      obtain ⟨hm, hgm⟩ := hI3 r hr
      refine ⟨hm, ?_⟩
      intro g hgr
      dsimp only [createGame] at hgr
      by_cases hgc : g = S.gameCounter
      · subst hgc
        rw [Function.update_same] at hgr
        exact hgr.symm
      · rw [Function.update_noteq hgc] at hgr
        exact hgm g hgr
  | join sender gid S S' h =>
    obtain ⟨hp1, _, _, _, hS'⟩ := joinGame_ok h
    have hlt : gid < S.gameCounter := by
      by_contra hge
      exact hp1 (by rw [hI1 gid (by omega)]; rfl)
    subst hS'
    refine ⟨?_, ?_, ?_⟩
    · intro g hg
      dsimp only at hg ⊢
      rw [Function.update_noteq (by omega)]
      exact hI1 g hg
    · intro r hr
      exact hI2 r hr
    · intro r hr
      obtain ⟨hm, hgm⟩ := hI3 r hr
      refine ⟨hm, ?_⟩
      intro g hgr
      dsimp only at hgr
      by_cases hgd : g = gid
      · subst hgd
        rw [Function.update_same] at hgr
        exact hgm _ hgr
      · rw [Function.update_noteq hgd] at hgr
        exact hgm g hgr
  | move sender inputOk gid mv S S' h =>
    obtain ⟨hst, _, _, hbr⟩ := makeMove_ok h
    have hlt : gid < S.gameCounter := by
      by_contra hge
      rw [hI1 gid (by omega)] at hst
      exact absurd hst (by decide)
    rcases hbr with ⟨_, _, ⟨_, hS'⟩ | ⟨_, hS'⟩⟩ | ⟨_, _, ⟨_, hS'⟩ | ⟨_, hS'⟩⟩ <;>
      (subst hS'
       refine ⟨?_, ?_, ?_⟩
       · intro g hg
         dsimp only at hg ⊢
         rw [Function.update_noteq (by omega)]
         exact hI1 g hg
       · intro r hr
         exact hI2 r hr
       · intro r hr
         obtain ⟨hm, hgm⟩ := hI3 r hr
         refine ⟨hm, ?_⟩
         intro g hgr
         dsimp only at hgr
         by_cases hgd : g = gid
         · subst hgd
           rw [Function.update_same] at hgr
           exact hgm _ hgr
         · rw [Function.update_noteq hgd] at hgr
           exact hgm g hgr)
  | request sender f gid S S' h =>
    obtain ⟨hst, _, hS'⟩ := requestGameResolution_ok h
    have hlt : gid < S.gameCounter := by
      by_contra hge
      rw [hI1 gid (by omega)] at hst
      exact absurd hst (by decide)
    subst hS'
    refine ⟨?_, ?_, ?_⟩
    · intro g hg
      dsimp only at hg ⊢
      rw [Function.update_noteq (by omega)]
      exact hI1 g hg
    · intro r hr
      dsimp only at hr ⊢
      by_cases hrf : r = f
      · subst hrf
        rw [Function.update_same]
        exact hlt
      · rw [Function.update_noteq hrf] at hr ⊢
        exact hI2 r hr
    · intro r hr
      dsimp only at hr ⊢
      have hrf : r ≠ f := by
        intro he
        subst he
        rw [Function.update_same] at hr
        exact Bool.noConfusion hr
      rw [Function.update_noteq hrf] at hr
      obtain ⟨hm, hgm⟩ := hI3 r hr
      refine ⟨?_, ?_⟩
      · rw [Function.update_noteq hrf]
        exact hm
      · intro g hgr
        by_cases hgd : g = gid
        · subst hgd
          rw [Function.update_same] at hgr
          exact absurd hgr.symm hrf
        · rw [Function.update_noteq hgd] at hgr
          exact hgm g hgr
  | callback cs sender rid ct pf S S' hiss h =>
    have hS' := gameResolutionCallback_ok h
    have hlt : S.requestIdToGameId rid < S.gameCounter := hI2 rid hiss
    subst hS'
    refine ⟨?_, ?_, ?_⟩
    · intro g hg
      dsimp only at hg ⊢
      rw [Function.update_noteq (by omega)]
      exact hI1 g hg
    · intro r hr
      exact hI2 r hr
    · intro r hr
      obtain ⟨hm, hgm⟩ := hI3 r hr
      refine ⟨hm, ?_⟩
      intro g hgr
      dsimp only at hgr
      by_cases hgd : g = S.requestIdToGameId rid
      · subst hgd
        rw [Function.update_same] at hgr
        exact hgm _ hgr
      · rw [Function.update_noteq hgd] at hgr
        exact hgm g hgr

theorem reachable_inv {S : RPSState} (h : Reachable S) : Inv S := by
  induction h with
  | init => exact inv_initial
  | step _ hs ih => exact inv_step ih hs

/-- C3: for all 9 ordered pairs over {0,1,2}, the winner-evaluation circuit
computes `isDraw = (m1 = m2)` and `player1Wins` exactly on the pairs
(0,2), (1,0), (2,1); on the remaining non-equal pairs both outputs are false. -/
theorem claim_C3 :
    ∀ m1 m2 : Fin 3,
      isDrawCircuit m1.val m2.val = decide (m1.val = m2.val) ∧
      player1WinsCircuit m1.val m2.val =
        decide ((m1.val = 0 ∧ m2.val = 2) ∨ (m1.val = 1 ∧ m2.val = 0) ∨
          (m1.val = 2 ∧ m2.val = 1)) := by
  decide

/-- C4: a successful `requestGameResolution` presupposes status
`MovesCommitted` and a participant caller, moves the game to
`DecryptionInProgress`, and any second call on the same game then fails its
status guard with the `StateError` revert, mutating nothing (an
`Except.error` result carries no state). -/
theorem claim_C4 {S S' : RPSState} {gid s f : Nat}
    (h : requestGameResolution s f S gid = Except.ok S') :
    (S.games gid).status = GameStatus.MovesCommitted ∧
    (s = (S.games gid).player1 ∨ s = (S.games gid).player2) ∧
    (S'.games gid).status = GameStatus.DecryptionInProgress ∧
    ∀ s' f', requestGameResolution s' f' S' gid =
      Except.error "Game not ready for resolution" := by
  obtain ⟨hst, hpl, hS'⟩ := requestGameResolution_ok h
  have hS'st : (S'.games gid).status = GameStatus.DecryptionInProgress := by
    rw [hS']
    dsimp only
    rw [Function.update_same]
  refine ⟨hst, hpl, hS'st, ?_⟩
  intro s' f'
  simp [requestGameResolution, hS'st]

/-- C4 witness: the concrete run, where player 1 resolves game 0 with request
id 42 and every later resolution call on game 0 fails with the status error. -/
theorem claim_C4_witness :
    (stMoved.games 0).status = GameStatus.MovesCommitted ∧
    (1 = (stMoved.games 0).player1 ∨ 1 = (stMoved.games 0).player2) ∧
    (stRequested.games 0).status = GameStatus.DecryptionInProgress ∧
    ∀ s' f', requestGameResolution s' f' stRequested 0 =
      Except.error "Game not ready for resolution" :=
  @claim_C4 stMoved stRequested 0 1 42 rfl

/-- C7: `getGameResults` fails whenever `resultsDecrypted` is false, and a
successful call returns the stored flags together with the winner computed as:
no winner (`0`) on a draw, else player1 if `player1Wins`, else player2.  Being
a Solidity `view` function (embedded as a pure function into a value, not a
state), it mutates nothing. -/
theorem claim_C7 (S : RPSState) (gid : Nat) :
    ((S.games gid).resultsDecrypted = false → okFlag (getGameResults S gid) = false) ∧
    (∀ r, getGameResults S gid = Except.ok r →
      r = ((S.games gid).isDraw, (S.games gid).player1Wins,
        if (S.games gid).isDraw then 0
        else if (S.games gid).player1Wins then (S.games gid).player1
        else (S.games gid).player2)) := by
  constructor
  · intro hrd
    simp only [getGameResults]
    split_ifs with h1 h2
    · rfl
    · rfl
  · intro r hr
    simp only [getGameResults] at hr
    split_ifs at hr with h1 h2 h3 h4
    all_goals injection hr with hr
    all_goals subst hr
    all_goals simp_all

/-- C7 witness: in the concrete decrypted run, the results call reports
`(isDraw, player1Wins, winner) = (false, true, player 1)`. -/
theorem claim_C7_witness :
    ((false : Bool), (true : Bool), (1 : Nat)) =
      ((stDecrypted.games 0).isDraw, (stDecrypted.games 0).player1Wins,
        if (stDecrypted.games 0).isDraw then 0
        else if (stDecrypted.games 0).player1Wins then (stDecrypted.games 0).player1
        else (stDecrypted.games 0).player2) :=
  (claim_C7 stDecrypted 0).2 (false, true, 1) rfl

/-- C9: `isGameReady` is total by construction (it is a plain `Bool`-valued
function with no guard) and always returns the conjunction of the two
commitment flags with the status being `MovesCommitted`; for an id that was
never created (an untouched default slot) it returns `false`, while `getGame`
on such an id fails. -/
theorem claim_C9 (S : RPSState) (gid : Nat) :
    (isGameReady S gid =
      ((S.games gid).player1Committed && (S.games gid).player2Committed &&
        ((S.games gid).status == GameStatus.MovesCommitted))) ∧
    (S.games gid = defaultGame →
      isGameReady S gid = false ∧
      getGame S gid = Except.error "Game does not exist") := by
  refine ⟨rfl, ?_⟩
  intro hdef
  constructor
  · simp only [isGameReady, hdef]
    decide
  · simp only [getGame, hdef]
    rfl

/-- C9 witness: on a fresh deployment, game id 0 was never created;
`isGameReady` returns `false` while `getGame` fails. -/
theorem claim_C9_witness :
    isGameReady initialState 0 = false ∧
    getGame initialState 0 = Except.error "Game does not exist" :=
  (claim_C9 initialState 0).2 rfl

/-- C10: the decryption callback puts no restriction on its caller — the
definition never consults `msg.sender`, so for any two callers and identical
payloads the outcome is identical; the only trust enforcement is the payload
signature check. -/
theorem claim_C10 (checkSigs : Nat → Bool × Bool → Nat → Bool) (S : RPSState)
    (sender1 sender2 requestId : Nat) (cleartexts : Bool × Bool)
    (decryptionProof : Nat) :
    gameResolutionCallback checkSigs sender1 S requestId cleartexts decryptionProof =
    gameResolutionCallback checkSigs sender2 S requestId cleartexts decryptionProof :=
  rfl

/-- C8: along every operation from a reachable state, each game's status
either stays the same or strictly advances in the lifecycle order measured by
`GameStatus.rank` — it never moves backward. -/
theorem claim_C8 {S S' : RPSState} (hR : Reachable S) (hs : Step S S')
    (g : Nat) :
    (S.games g).status = (S'.games g).status ∨
    ((S.games g).status).rank < ((S'.games g).status).rank := by
  obtain ⟨hI1, _⟩ := reachable_inv hR
  have hle : ((S.games g).status).rank ≤ ((S'.games g).status).rank := by
    cases hs with
    | create sender t S =>
      dsimp only [createGame]
      by_cases hg : g = S.gameCounter
      · subst hg
        rw [Function.update_same, hI1 _ (le_refl _)]
        dsimp only [newGame, defaultGame]
        decide
      · rw [Function.update_noteq hg]
    | join sender gid S S' h =>
      obtain ⟨_, _, _, hst, hS'⟩ := joinGame_ok h
      subst hS'
      dsimp only
      by_cases hg : g = gid
      · subst hg
        rw [Function.update_same, hst]
        dsimp only
        decide
      · rw [Function.update_noteq hg]
    | move sender inputOk gid mv S S' h =>
      obtain ⟨hst, _, _, hbr⟩ := makeMove_ok h
      by_cases hg : g = gid
      · subst hg
        rcases hbr with ⟨_, _, ⟨_, hS'⟩ | ⟨_, hS'⟩⟩ | ⟨_, _, ⟨_, hS'⟩ | ⟨_, hS'⟩⟩ <;>
          (subst hS'
           dsimp only
           rw [Function.update_same]
           all_goals simp [hst, GameStatus.rank])
      · have hS' : ∃ g' : Game,
            S' = { S with games := Function.update S.games gid g' } := by
          rcases hbr with ⟨_, _, ⟨_, hS'⟩ | ⟨_, hS'⟩⟩ | ⟨_, _, ⟨_, hS'⟩ | ⟨_, hS'⟩⟩ <;>
            exact ⟨_, hS'⟩
        obtain ⟨g', hS'⟩ := hS'
        subst hS'
        dsimp only
        rw [Function.update_noteq hg]
    | request sender f gid S S' h =>
      obtain ⟨hst, _, hS'⟩ := requestGameResolution_ok h
      subst hS'
      dsimp only
      by_cases hg : g = gid
      · subst hg
        rw [Function.update_same, hst]
        dsimp only
        decide
      · rw [Function.update_noteq hg]
    | callback cs sender rid ct pf S S' hiss h =>
      have hS' := gameResolutionCallback_ok h
      subst hS'
      dsimp only
      by_cases hg : g = S.requestIdToGameId rid
      · subst hg
        rw [Function.update_same]
        refine le_trans (rank_le_four _) ?_
        dsimp only
        decide
      · rw [Function.update_noteq hg]
  rcases Nat.eq_or_lt_of_le hle with he | hlt
  · exact Or.inl (rank_injective he)
  · exact Or.inr hlt

/-- C8 witness: the first operation from a fresh deployment — creating game 0
— leaves game 0's status unchanged at the bottom of the lifecycle order. -/
theorem claim_C8_witness :
    (initialState.games 0).status = (stCreated.games 0).status ∨
    ((initialState.games 0).status).rank < ((stCreated.games 0).status).rank :=
  claim_C8 Reachable.init (Step.create 1 100 initialState) 0

/-- C5: `makeMove` fails for a non-participant caller, for a caller whose
committed flag is already set, and outside `WaitingForMoves`; a successful
call (the external input verification passing) presupposes the
`WaitingForMoves` status and a participant caller, stores the caller's move
handle, sets the caller's committed flag, and afterwards the status is
`MovesCommitted` exactly when both committed flags hold. -/
theorem claim_C5 (S : RPSState) (gid s mv : Nat) (inputOk : Bool) :
    ((¬ (s = (S.games gid).player1 ∨ s = (S.games gid).player2) →
        okFlag (makeMove s inputOk S gid mv) = false) ∧
      ((if s = (S.games gid).player1 then (S.games gid).player1Committed
          else (S.games gid).player2Committed) = true →
        okFlag (makeMove s inputOk S gid mv) = false) ∧
      ((S.games gid).status ≠ GameStatus.WaitingForMoves →
        okFlag (makeMove s inputOk S gid mv) = false)) ∧
    (∀ S', makeMove s inputOk S gid mv = Except.ok S' →
      (S.games gid).status = GameStatus.WaitingForMoves ∧
      (s = (S.games gid).player1 ∨ s = (S.games gid).player2) ∧
      (if s = (S.games gid).player1
        then (S'.games gid).encryptedMove1 = mv % 256 ∧
          (S'.games gid).player1Committed = true
        else (S'.games gid).encryptedMove2 = mv % 256 ∧
          (S'.games gid).player2Committed = true) ∧
      ((S'.games gid).status = GameStatus.MovesCommitted ↔
        ((S'.games gid).player1Committed = true ∧
          (S'.games gid).player2Committed = true))) := by
  refine ⟨⟨?_, ?_, ?_⟩, ?_⟩
  · intro hbad
    simp only [makeMove]
    split_ifs with h1 h2 h3 h4 h5 h6 <;> first | rfl | tauto | simp_all
  · intro hbad
    simp only [makeMove]
    split_ifs with h1 h2 h3 h4 h5 h6 <;> first | rfl | tauto | simp_all
  · intro hbad
    simp only [makeMove]
    split_ifs with h1 h2 h3 h4 h5 h6 <;> first | rfl | tauto | simp_all
  · intro S' hok
    obtain ⟨hst, hpl, _, hbr⟩ := makeMove_ok hok
    rcases hbr with ⟨hp, hc1, ⟨hc, hS'⟩ | ⟨hc, hS'⟩⟩ | ⟨hp, hc1, ⟨hc, hS'⟩ | ⟨hc, hS'⟩⟩ <;>
      (subst hS'
       refine ⟨hst, hpl, ?_, ?_⟩ <;>
         simp [Function.update_same, hp, hc1, hc, hst])

/-- C5 witness: the concrete run where player 1 commits move 0 in game 0 —
the move is stored in slot 1, the flag set, and the status stays short of
`MovesCommitted` because player 2 has not committed. -/
theorem claim_C5_witness :
    (stJoined.games 0).status = GameStatus.WaitingForMoves ∧
    (1 = (stJoined.games 0).player1 ∨ 1 = (stJoined.games 0).player2) ∧
    (if 1 = (stJoined.games 0).player1
      then (stMove1.games 0).encryptedMove1 = 0 % 256 ∧
        (stMove1.games 0).player1Committed = true
      else (stMove1.games 0).encryptedMove2 = 0 % 256 ∧
        (stMove1.games 0).player2Committed = true) ∧
    ((stMove1.games 0).status = GameStatus.MovesCommitted ↔
      ((stMove1.games 0).player1Committed = true ∧
        (stMove1.games 0).player2Committed = true)) :=
  (claim_C5 stJoined 0 1 0 true).2 stMove1 rfl

/-- C6 counterexample: for a game id that was never created, none of the three
failure conditions named by the claim holds (`player2` is unset, the caller
differs from `player1`, the status is `WaitingForPlayers` — all Solidity
defaults), yet `joinGame` fails with the existence guard rather than
succeeding as the claim asserts. -/
theorem claim_C6_counterexample :
    (initialState.games 0).player2 = 0 ∧
    (initialState.games 0).player1 ≠ 5 ∧
    (initialState.games 0).status = GameStatus.WaitingForPlayers ∧
    joinGame 5 initialState 0 = Except.error "Game does not exist" :=
  ⟨rfl, by decide, rfl, rfl⟩

/-- C6 (amended): `joinGame` fails when the game does not exist (`player1`
unset), when `player2` is already set, when the caller equals `player1`, or
when the status is not `WaitingForPlayers`; otherwise it succeeds, sets
`player2` to the caller and advances the status to `WaitingForMoves`. -/
theorem claim_C6_amended (S : RPSState) (gid s : Nat) :
    (((S.games gid).player1 = 0 ∨ (S.games gid).player2 ≠ 0 ∨
        (S.games gid).player1 = s ∨
        (S.games gid).status ≠ GameStatus.WaitingForPlayers) →
      okFlag (joinGame s S gid) = false) ∧
    (∀ S', joinGame s S gid = Except.ok S' →
      (S'.games gid).player2 = s ∧
      (S'.games gid).status = GameStatus.WaitingForMoves) ∧
    ((S.games gid).player1 ≠ 0 → (S.games gid).player2 = 0 →
      (S.games gid).player1 ≠ s →
      (S.games gid).status = GameStatus.WaitingForPlayers →
      okFlag (joinGame s S gid) = true) := by
  refine ⟨?_, ?_, ?_⟩
  · intro hbad
    simp only [joinGame]
    split_ifs with h1 h2 h3 h4 <;> first | rfl | tauto
  · intro S' h
    obtain ⟨_, _, _, _, hS'⟩ := joinGame_ok h
    subst hS'
    dsimp only
    rw [Function.update_same]
    exact ⟨rfl, rfl⟩
  · intro h1 h2 h3 h4
    simp [joinGame, h1, h2, h3, h4, okFlag]

/-- C6 witness: player 2 joins the freshly created game 0 — the call succeeds,
stores player 2 and advances the status. -/
theorem claim_C6_witness :
    okFlag (joinGame 2 stCreated 0) = true ∧
    ((stJoined.games 0).player2 = 2 ∧
      (stJoined.games 0).status = GameStatus.WaitingForMoves) :=
  ⟨(claim_C6_amended stCreated 0 2).2.2 (by decide) (by decide) (by decide)
      (by decide),
    (claim_C6_amended stCreated 0 2).2.1 stJoined rfl⟩

/-- C2 counterexample: the correlation id 0 was never issued (the table is
untouched and the ghost `issued` field is everywhere false), yet — because
`requestIdToGameId[0]` defaults to 0 and `games[0].requestId` defaults to 0 —
the callback's `Request ID not found` guard passes, and with a passing
signature check the call succeeds and mutates game 0, flipping its
`resultsDecrypted` from false to true. -/
theorem claim_C2_counterexample :
    stCreated.requestIdToGameId 0 = 0 ∧
    stCreated.issued 0 = false ∧
    (stCreated.games 0).resultsDecrypted = false ∧
    okFlag (gameResolutionCallback sigAlwaysTrue 9 stCreated 0 (true, false) 0) = true ∧
    ((okState initialState
        (gameResolutionCallback sigAlwaysTrue 9 stCreated 0 (true, false) 0)).games 0).resultsDecrypted = true :=
  ⟨rfl, rfl, rfl, rfl, rfl⟩

/-- C2 (amended): in every reachable state, the callback rejects every
never-issued nonzero request id with the `Request ID not found` revert,
mutating nothing (the error result carries no state).  The never-issued id 0,
however, passes the lookup guard whenever `games[0].requestId = 0` (for
instance when game 0 exists but never requested resolution), and is then
stopped only if the external signature verification rejects the payload —
see the counterexample. -/
theorem claim_C2_amended (checkSigs : Nat → Bool × Bool → Nat → Bool)
    (sender : Nat) (S : RPSState) (requestId : Nat) (cleartexts : Bool × Bool)
    (decryptionProof : Nat) (hR : Reachable S)
    (hiss : S.issued requestId = false) (hnz : requestId ≠ 0) :
    gameResolutionCallback checkSigs sender S requestId cleartexts
      decryptionProof = Except.error "Request ID not found" := by
  obtain ⟨-, -, hI3⟩ := reachable_inv hR
  obtain ⟨hm, hgm⟩ := hI3 requestId hiss
  have hreq : (S.games 0).requestId ≠ requestId := fun he => hnz (hgm 0 he)
  simp [gameResolutionCallback, hm, hreq]

/-- C2 witness: in the concrete reachable run only id 42 was ever issued; the
unknown id 7 is rejected by the lookup guard. -/
theorem claim_C2_witness :
    gameResolutionCallback sigAlwaysTrue 9 stRequested 7 (true, true) 0 =
      Except.error "Request ID not found" :=
  claim_C2_amended sigAlwaysTrue 9 stRequested 7 (true, true) 0
    (Reachable.step
      (Reachable.step
        (Reachable.step
          (Reachable.step
            (Reachable.step Reachable.init (Step.create 1 100 initialState))
            (Step.join 2 0 stCreated stJoined rfl))
          (Step.move 1 true 0 0 stJoined stMove1 rfl))
        (Step.move 2 true 0 2 stMove1 stMoved rfl))
      (Step.request 1 42 0 stMoved stRequested rfl))
    (by decide) (by decide)

/-- C1: the callback has no guard on the game's status, so a second
(replayed) callback for a request id whose game is already `ResultsDecrypted`
is accepted rather than rejected, and it overwrites the stored results: in
the concrete run game 0 is resolved with `(isDraw, player1Wins) =
(false, true)`, and a replayed callback carrying `(true, false)` with a
passing signature check succeeds and flips both stored values. -/
theorem claim_C1_replay_bug :
    (stDecrypted.games 0).status = GameStatus.ResultsDecrypted ∧
    (stDecrypted.games 0).isDraw = false ∧
    (stDecrypted.games 0).player1Wins = true ∧
    okFlag (gameResolutionCallback sigAlwaysTrue 9 stDecrypted 42 (true, false) 0) = true ∧
    ((okState initialState
        (gameResolutionCallback sigAlwaysTrue 9 stDecrypted 42 (true, false) 0)).games 0).isDraw = true ∧
    ((okState initialState
        (gameResolutionCallback sigAlwaysTrue 9 stDecrypted 42 (true, false) 0)).games 0).player1Wins = false :=
  ⟨rfl, rfl, rfl, rfl, rfl, rfl⟩

end RPS
